import Mathlib

/-
Shallow embedding of the PC build-synthesis and compatibility engine of
the repository (src/ai_service/app.py and src/ai_service/compat.py),
together with proofs settling the frozen claims about it.

Modelling conventions:
* CSV part records (Python dicts produced by `pd.read_csv(...).fillna("")`)
  are modelled by the structure `Part`.  The ad hoc numeric coercions the
  Python code applies at every read site (`int(x or 0)`, `money(x)`) are
  pre-applied: numeric fields hold the coerced value, with 0 standing for
  an absent or empty cell, exactly as the code observes them.
* A build entry is Python `None`, the `{}` placeholder dict, or a real part
  record; these are the three constructors of `Slot`.  Python truthiness
  (`not part`) is `Slot.falsy` (a CSV row dict is never empty, so only
  `None` and `{}` are falsy).
* Prices and lengths are modelled as rationals (`ℚ`); Python floats on this
  data are exact decimal values.
* The request message enters `build_always` only through the deterministic
  functions `get_requirements_analysis`, `wants_rgb` and `wants_quiet`;
  the values they derive (a `Reqs` profile and two booleans) are taken as
  parameters, and the module-global `PARTS` catalog is a parameter too.
* String helpers (upper/lower/trim/split/substring) are re-implemented over
  `List Char` with structural recursion, mirroring the Python semantics on
  the ASCII data the catalog holds.
-/

namespace PCBuilder

/-! ### Character and string helpers (Python str methods) -/

/-- ASCII uppercase of one character (Python `str.upper` on catalog data). -/
def upChar (c : Char) : Char :=
  if 'a' ≤ c ∧ c ≤ 'z' then Char.ofNat (c.toNat - 32) else c

/-- ASCII lowercase of one character (Python `str.lower` on catalog data). -/
def loChar (c : Char) : Char :=
  if 'A' ≤ c ∧ c ≤ 'Z' then Char.ofNat (c.toNat + 32) else c

/-- Python `str.strip`: drop whitespace from both ends. -/
def trimL (l : List Char) : List Char :=
  ((l.dropWhile Char.isWhitespace).reverse.dropWhile Char.isWhitespace).reverse

/-- Collapse every maximal whitespace run into a single space
(the `re.sub(r"\s+", " ", s)` step of `norm`). -/
def collapseWS : List Char → List Char
  | [] => []
  | c :: rest =>
    if c.isWhitespace then
      match collapseWS rest with
      | ' ' :: t => ' ' :: t
      | t => ' ' :: t
    else c :: collapseWS rest

/-- Python `str.split(sep)` for a one-character separator. -/
def splitChar (sep : Char) : List Char → List (List Char)
  | [] => [[]]
  | c :: rest =>
    if c = sep then [] :: splitChar sep rest
    else
      match splitChar sep rest with
      | [] => [[c]]
      | h :: t => (c :: h) :: t

def isPrefixL : List Char → List Char → Bool
  | [], _ => true
  | _ :: _, [] => false
  | a :: as, b :: bs => a == b && isPrefixL as bs

def containsL (pat : List Char) : List Char → Bool
  | [] => pat.isEmpty
  | c :: rest => isPrefixL pat (c :: rest) || containsL pat rest

/-- Python `pat in s` substring test. -/
def strContains (s pat : String) : Bool := containsL pat.data s.data

def upperStr (s : String) : String := String.mk (s.data.map upChar)

def lowerStr (s : String) : String := String.mk (s.data.map loChar)

def trimStr (s : String) : String := String.mk (trimL s.data)

/-- app.py `norm`: lowercase, strip, collapse inner whitespace. -/
def normStr (s : String) : String := String.mk (collapseWS (trimL (s.data.map loChar)))

/-! ### Data model -/

/-- One catalog record (a row of parts.csv as the code reads it). -/
structure Part where
  id : String := ""
  category : String := ""
  brand : String := ""
  model : String := ""
  price_usd : ℚ := 0
  socket : String := ""
  ram_type : String := ""
  vram_gb : ℕ := 0
  length_mm : ℚ := 0
  max_gpu_length_mm : ℚ := 0
  psu_wattage : ℕ := 0
  capacity_gb : ℕ := 0
  form_factor : String := ""
  deriving DecidableEq, Repr

/-- A build entry: Python `None`, the `{}` placeholder, or a part record. -/
inductive Slot where
  | nil : Slot
  | empty : Slot
  | part : Part → Slot
  deriving DecidableEq, Repr

/-- Python truthiness of a build entry: `None` and `{}` are falsy. -/
def Slot.falsy : Slot → Bool
  | .part _ => false
  | _ => true

/-- The price the code reads off a build entry: `money((part or {}).get("price_usd"))`. -/
def Slot.price : Slot → ℚ
  | .part p => p.price_usd
  | _ => 0

/-- `str(entry.get("socket") or "")` on a build entry. -/
def Slot.socketStr : Slot → String
  | .part p => p.socket
  | _ => ""

/-- `entry.get("ram_type")` on a build entry, coerced to a string. -/
def Slot.ramTypeStr : Slot → String
  | .part p => p.ram_type
  | _ => ""

/-- `build.get(cat) if isinstance(build.get(cat), dict) else None`, as the
code passes GPU entries to the case/PSU pickers.  (`{}` maps to `none`,
which the pickers treat identically to `None`: both are falsy.) -/
def Slot.toOption : Slot → Option Part
  | .part p => some p
  | _ => none

def optToSlot : Option Part → Slot
  | some p => .part p
  | none => .nil

/-- The seven fixed build categories. -/
inductive Cat where
  | CPU | GPU | Motherboard | RAM | Storage | PSU | Case
  deriving DecidableEq, Repr

def Cat.name : Cat → String
  | .CPU => "CPU"
  | .GPU => "GPU"
  | .Motherboard => "Motherboard"
  | .RAM => "RAM"
  | .Storage => "Storage"
  | .PSU => "PSU"
  | .Case => "Case"

/-- The `categories` list of `build_always` (same order as the downgrade
priority list). -/
def allCats : List Cat := [.GPU, .CPU, .Motherboard, .RAM, .Storage, .PSU, .Case]

/-- The requirements profile produced by compat.py `get_requirements_analysis`
(the `notes` list is never read by the build path and is omitted). -/
structure Reqs where
  min_ram : ℕ := 8
  recommended_ram : ℕ := 16
  cpu_cores : ℕ := 4
  gpu_vram : ℕ := 0
  min_gpu_tier : String := "low"
  storage_type : String := "SSD"
  deriving DecidableEq, Repr

/-- The profile `get_requirements_analysis` returns when no known titles
match and the usage text has no content-creation keyword: exactly the
initial `analysis` dict of compat.py lines 140-148. -/
def defaultAnalysis : Reqs := {}

/-! ### RAM-type normalizers (compat.py and app.py each have one) -/

/-- compat.py `ram_type_set`: uppercase and strip, then split on `/` or `,`,
keeping the stripped nonempty pieces as a set. -/
def ramTypeSetCompat (v : String) : Finset String :=
  let s := trimStr (upperStr v)
  if s = "" then ∅
  else if s.data.contains '/' then
    ((((splitChar '/' s.data).map trimL).filter (fun t => !t.isEmpty)).map String.mk).toFinset
  else if s.data.contains ',' then
    ((((splitChar ',' s.data).map trimL).filter (fun t => !t.isEmpty)).map String.mk).toFinset
  else {s}

/-- app.py `ram_type_set`: uppercase, then test for the substrings
`"DDR4"` and `"DDR5"` only. -/
def ramTypeSetApp (value : String) : Finset String :=
  let s := upperStr value
  let o1 : Finset String := if strContains s "DDR4" then {"DDR4"} else ∅
  if strContains s "DDR5" then o1 ∪ {"DDR5"} else o1

/-! ### Compatibility checks (compat.py) -/

/-- compat.py `cpu_mobo`. -/
def cpuMobo (cpu mobo : Slot) : Bool × String :=
  if cpu.falsy || mobo.falsy then (false, "CPU or motherboard missing")
  else if trimStr cpu.socketStr ≠ trimStr mobo.socketStr then
    (false, "Socket mismatch (" ++ cpu.socketStr ++ " vs " ++ mobo.socketStr ++ ")")
  else (true, "")

/-- compat.py `ram_mobo`. -/
def ramMobo (ram mobo : Slot) : Bool × String :=
  if ram.falsy || mobo.falsy then (false, "RAM or motherboard missing")
  else
    let rset := ramTypeSetCompat ram.ramTypeStr
    let mset := ramTypeSetCompat mobo.ramTypeStr
    if rset ≠ ∅ ∧ mset ≠ ∅ ∧ rset ∩ mset = ∅ then
      (false, "RAM type mismatch (" ++ ram.ramTypeStr ++ " vs " ++ mobo.ramTypeStr ++ ")")
    else (true, "")

/-- compat.py `gpu_case`.  A missing operand returns `(true, "")` — the
check passes; the message renders the two lengths (numeric rendering of
the Python f-string is abstracted by `toString`). -/
def gpuCase (gpu cas : Slot) : Bool × String :=
  if gpu.falsy || cas.falsy then (true, "")
  else
    let gpuLen : ℚ := match gpu with
      | .part p => p.length_mm
      | _ => 0
    let caseLen : ℚ := match cas with
      | .part p => if p.max_gpu_length_mm = 0 then 9999 else p.max_gpu_length_mm
      | _ => 9999
    if caseLen < gpuLen then
      (false, "GPU too long (" ++ toString gpuLen ++ "mm > " ++ toString caseLen ++ "mm)")
    else (true, "")

structure Report where
  compatible : Bool
  issues : List String
  deriving DecidableEq, Repr

/-- compat.py `check_full_build_compatibility`, applied to the
category-to-entry map the endpoint passes. -/
def checkFullBuildCompatibility (b : Cat → Slot) : Report :=
  let i0 : List String := []
  let r1 := cpuMobo (b .CPU) (b .Motherboard)
  let i1 := if r1.1 then i0 else i0 ++ [r1.2]
  let r2 := ramMobo (b .RAM) (b .Motherboard)
  let i2 := if r2.1 then i1 else i1 ++ [r2.2]
  let r3 := gpuCase (b .GPU) (b .Case)
  let i3 := if r3.1 then i2 else i2 ++ [r3.2]
  { compatible := i3.length == 0, issues := i3 }

/-! ### Candidate filter (compat.py `recommend_parts_for_requirements`) -/

/-- The keep/drop decision the filter loop makes for a single part (the
`continue` statements of compat.py lines 219-245, as a predicate). -/
def recommendKeep (reqs : Reqs) (budget : ℕ) (p : Part) : Bool :=
  let reqRam := if reqs.recommended_ram = 0 then 16 else reqs.recommended_ram
  let tier := reqs.min_gpu_tier
  if p.category == "RAM" && decide (p.capacity_gb < min reqRam 32) then false
  else if p.category == "GPU" &&
      (decide (0 < reqs.gpu_vram ∧ p.vram_gb < reqs.gpu_vram)
        || (tier == "high" && decide (p.vram_gb < 12))
        || (tier == "mid" && decide (p.vram_gb < 8))
        || (tier == "low" && decide (p.vram_gb < 4))
        || (decide (budget ≠ 0) && !(tier == "high")
              && decide ((budget : ℚ) * (80 / 100) < p.price_usd))) then
    false
  else true

/-- compat.py `recommend_parts_for_requirements`. -/
def recommendPartsForRequirements (reqs : Reqs) (parts : List Part) (budget : ℕ) : List Part :=
  parts.filter (recommendKeep reqs budget)

/-! ### Allocator helpers (app.py) -/

/-- app.py `parts_by_category`. -/
def partsByCategory (parts : List Part) (category : String) : List Part :=
  parts.filter (fun p => trimStr p.category == category)

/-- Ascending price order (the key of every `candidates.sort(...)` call). -/
def priceLE (a b : Part) : Prop := a.price_usd ≤ b.price_usd

instance : DecidableRel priceLE :=
  fun a b => inferInstanceAs (Decidable (a.price_usd ≤ b.price_usd))

instance : IsTotal Part priceLE := ⟨fun a b => le_total a.price_usd b.price_usd⟩

instance : IsTrans Part priceLE := ⟨fun _ _ _ h1 h2 => le_trans h1 h2⟩

/-- Python `list.sort(key=lambda x: money(x.get("price_usd")))`
(a stable ascending sort). -/
def sortByPrice (l : List Part) : List Part := List.insertionSort priceLE l

/-- app.py `gpu_score`. -/
def gpuScore (g : Part) : ℚ := (g.vram_gb : ℚ) * 10000 + g.price_usd

/-- app.py `cpu_score`. -/
def cpuScore (c : Part) : ℚ := c.price_usd

/-- app.py `storage_score`. -/
def storageScore (s : Part) : ℚ :=
  let ff := lowerStr s.form_factor
  let nvmeBonus : ℚ := if strContains ff "nvme" || strContains ff "m.2" then 5000 else 0
  (s.capacity_gb : ℚ) + nvmeBonus + s.price_usd

/-- app.py `ram_score`. -/
def ramScore (r : Part) (preferRgb : Bool) : ℚ :=
  let rgbBonus : ℚ := if preferRgb && strContains (normStr r.model) "rgb" then 5000 else 0
  (r.capacity_gb : ℚ) * 100 + rgbBonus + r.price_usd

/-- app.py `pick_best_within`: best score among parts with
`0 < price ≤ cap`, first-seen wins ties, starting score `-1e18`. -/
def pickBestWithin (items : List Part) (cap : ℚ) (score : Part → ℚ) : Option Part :=
  (items.foldl
    (fun acc it =>
      if it.price_usd ≤ 0 then acc
      else if cap < it.price_usd then acc
      else if acc.2 < score it then (some it, score it) else acc)
    ((none : Option Part), -(10 ^ 18 : ℚ))).1

/-- app.py `pick_mobo_for_cpu`. -/
def pickMoboForCpu (cpu : Slot) (pool : List Part) (preferredRam : Option String) : Option Part :=
  let mobos := partsByCategory pool "Motherboard"
  let sock := trimStr cpu.socketStr
  let bySocket := mobos.filter (fun m => trimStr m.socket == sock)
  let candidates :=
    match preferredRam with
    | none => bySocket
    | some prStr =>
      let pr := ramTypeSetApp prStr
      bySocket.filter (fun m => decide (pr = ∅ ∨ ramTypeSetApp m.ram_type ∩ pr ≠ ∅))
  let s := sortByPrice candidates
  s[s.length - 1]?

/-- app.py `pick_ram_for_mobo`. -/
def pickRamForMobo (mobo : Slot) (pool : List Part) (needGb : ℕ) (preferRgb : Bool)
    (cap : ℚ) : Option Part :=
  let rams := partsByCategory pool "RAM"
  let mset := ramTypeSetApp mobo.ramTypeStr
  let c1 := rams.filter (fun r => decide (mset = ∅ ∨ ramTypeSetApp r.ram_type ∩ mset ≠ ∅))
  let c2 := c1.filter (fun r => decide (needGb ≤ r.capacity_gb))
  let c3 := sortByPrice c2
  match pickBestWithin c3 cap (fun r => ramScore r preferRgb) with
  | some r => some r
  | none => c3[0]?

/-- app.py `pick_case_for_gpu`. -/
def pickCaseForGpu (gpu : Option Part) (pool : List Part) : Option Part :=
  let cases := partsByCategory pool "Case"
  if cases = [] then none
  else
    match gpu with
    | none =>
      let s := sortByPrice cases
      s[s.length - 1]?
    | some g =>
      if g.length_mm = 0 then
        let s := sortByPrice cases
        s[s.length - 1]?
      else
        let fit := cases.filter (fun c => decide (g.length_mm ≤ c.max_gpu_length_mm))
        let fit2 := if fit = [] then cases else fit
        let s := sortByPrice fit2
        s[s.length - 1]?

/-- The wattage requirement of app.py `pick_psu_for_gpu`:
`int(gpu.get("psu_wattage") or 650) if gpu else 650`. -/
def psuNeed (gpu : Option Part) : ℕ :=
  match gpu with
  | some g => if g.psu_wattage = 0 then 650 else g.psu_wattage
  | none => 650

/-- The PSUs meeting the required wattage:
`[p for p in psus if int(p.get("psu_wattage") or 0) >= need]`. -/
def psuQualified (gpu : Option Part) (pool : List Part) : List Part :=
  (partsByCategory pool "PSU").filter (fun p => decide (psuNeed gpu ≤ p.psu_wattage))

/-- The candidate pool of `pick_psu_for_gpu`: the qualifying PSUs, or all
PSUs when none qualifies (`candidates = [...] or psus`). -/
def psuCandidates (gpu : Option Part) (pool : List Part) : List Part :=
  if psuQualified gpu pool = [] then partsByCategory pool "PSU" else psuQualified gpu pool

/-- app.py `pick_psu_for_gpu`. -/
def pickPsuForGpu (gpu : Option Part) (pool : List Part) (quiet : Bool) : Option Part :=
  let psus := partsByCategory pool "PSU"
  if psus = [] then none
  else
    let s := sortByPrice (psuCandidates gpu pool)
    if quiet then s[s.length - 1]? else s[min (s.length - 1) 2]?

/-! ### Build synthesis (app.py `build_always`) -/

/-- The level adjustment of `build_always` lines 701-707. -/
def tierTuning (level : String) (reqs : Reqs) : Reqs :=
  if level == "minimum" then
    { reqs with recommended_ram := max 16 (if reqs.min_ram = 0 then 8 else reqs.min_ram) }
  else if level == "high_end" then
    { reqs with
        recommended_ram := max 32 (if reqs.recommended_ram = 0 then 16 else reqs.recommended_ram),
        min_gpu_tier := "high",
        storage_type := "NVMe" }
  else reqs

/-- Line 712: `recommend_parts_for_requirements(reqs, PARTS, budget) or PARTS`. -/
def filteredOf (reqs : Reqs) (parts : List Part) (budget : ℕ) : List Part :=
  let f := recommendPartsForRequirements reqs parts budget
  if f = [] then parts else f

/-- The budget weights of line 724. -/
def weights : Cat → ℚ
  | .GPU => 42 / 100
  | .CPU => 20 / 100
  | .Motherboard => 12 / 100
  | .RAM => 10 / 100
  | .Storage => 8 / 100
  | .PSU => 5 / 100
  | .Case => 3 / 100

/-- Line 725: the weight mass of the non-owned categories (1.0 when all
categories are owned). -/
def weightSum (owned : Cat → Option Part) : ℚ :=
  let present := allCats.filter (fun c => (owned c).isNone)
  if present = [] then 1 else (present.map weights).sum

/-- The `alloc(cat)` closure of lines 727-728. -/
def allocFor (budget : ℕ) (owned : Cat → Option Part) (c : Cat) : ℚ :=
  (budget : ℚ) * (weights c / weightSum owned)

/-- A per-category selection cap, `min(float(budget), alloc * mult)`. -/
def selCap (budget : ℕ) (allocv mult : ℚ) : ℚ :=
  if (budget : ℚ) ≤ allocv * mult then (budget : ℚ) else allocv * mult

/-- The CPU pick of lines 731-734 (cap maximization, else cheapest filtered CPU). -/
def cpuChoice (filtered : List Part) (budget : ℕ) (owned : Cat → Option Part)
    (level : String) : Option Part :=
  let cpus := partsByCategory filtered "CPU"
  let cap := selCap budget (allocFor budget owned .CPU)
    (if level == "high_end" then 125 / 100 else 110 / 100)
  match pickBestWithin cpus cap cpuScore with
  | some c => some c
  | none => (sortByPrice cpus)[0]?

/-- The CPU entry after lines 717-734: the owned part, or the chosen one. -/
def cpuSel (filtered : List Part) (budget : ℕ) (owned : Cat → Option Part)
    (level : String) : Slot :=
  match owned .CPU with
  | some p => .part p
  | none => optToSlot (cpuChoice filtered budget owned level)

/-- The motherboard pick of lines 737-745 (preferred RAM type, then any
socket match, then cheapest filtered motherboard). -/
def moboChoice (cpu : Slot) (filtered : List Part) (budget : ℕ) : Option Part :=
  let preferred := if 900 ≤ budget then "DDR5" else "DDR4"
  match pickMoboForCpu cpu filtered (some preferred) with
  | some m => some m
  | none =>
    match pickMoboForCpu cpu filtered none with
    | some m => some m
    | none => (sortByPrice (partsByCategory filtered "Motherboard"))[0]?

def moboSel (filtered : List Part) (budget : ℕ) (owned : Cat → Option Part)
    (level : String) : Slot :=
  match owned .Motherboard with
  | some p => .part p
  | none => optToSlot (moboChoice (cpuSel filtered budget owned level) filtered budget)

/-- The RAM pick of lines 748-758. -/
def ramChoice (mobo : Slot) (reqs : Reqs) (level : String) (filtered : List Part)
    (budget : ℕ) (owned : Cat → Option Part) (preferRgb : Bool) : Option Part :=
  let needGb0 := if reqs.recommended_ram = 0 then 16 else reqs.recommended_ram
  let needGb := if level == "high_end" then max 32 needGb0 else needGb0
  let cap := selCap budget (allocFor budget owned .RAM) (125 / 100)
  match pickRamForMobo mobo filtered needGb preferRgb cap with
  | some r => some r
  | none => (sortByPrice (partsByCategory filtered "RAM"))[0]?

def ramSel (reqs : Reqs) (filtered : List Part) (budget : ℕ) (owned : Cat → Option Part)
    (level : String) (preferRgb : Bool) : Slot :=
  match owned .RAM with
  | some p => .part p
  | none =>
    optToSlot (ramChoice (moboSel filtered budget owned level) reqs level filtered
      budget owned preferRgb)

/-- The GPU pick of lines 761-768 (cap maximization, else cheapest filtered
GPU, else cheapest GPU of the whole catalog). -/
def gpuChoice (filtered parts : List Part) (budget : ℕ) (owned : Cat → Option Part)
    (level : String) : Option Part :=
  let gpus := partsByCategory filtered "GPU"
  let cap := selCap budget (allocFor budget owned .GPU)
    (if level == "high_end" then 130 / 100 else 120 / 100)
  let first :=
    match pickBestWithin gpus cap gpuScore with
    | some g => some g
    | none => (sortByPrice gpus)[0]?
  match first with
  | some g => some g
  | none => (sortByPrice (partsByCategory parts "GPU"))[0]?

def gpuSel (filtered parts : List Part) (budget : ℕ) (owned : Cat → Option Part)
    (level : String) : Slot :=
  match owned .GPU with
  | some p => .part p
  | none => optToSlot (gpuChoice filtered parts budget owned level)

/-- The `ok(s)` storage eligibility predicate of lines 776-785. -/
def storageOk (desired : String) (needGb : ℕ) (s : Part) : Bool :=
  let ff := lowerStr s.form_factor
  if s.capacity_gb < needGb then false
  else if desired == "nvme" then strContains ff "nvme" || strContains ff "m.2"
  else if desired == "ssd" then !(strContains ff "hdd")
  else true

/-- The storage pick of lines 771-789. -/
def storageChoice (reqs : Reqs) (level : String) (filtered : List Part) (budget : ℕ)
    (owned : Cat → Option Part) : Option Part :=
  let stor := partsByCategory filtered "Storage"
  let desired := lowerStr reqs.storage_type
  let needGb : ℕ := if 1800 ≤ budget || level == "high_end" then 2000 else 1000
  let cands0 := stor.filter (storageOk desired needGb)
  let cands := if cands0 = [] then stor else cands0
  let cap := selCap budget (allocFor budget owned .Storage) (130 / 100)
  match pickBestWithin cands cap storageScore with
  | some s => some s
  | none => (sortByPrice cands)[0]?

def storageSel (reqs : Reqs) (filtered : List Part) (budget : ℕ)
    (owned : Cat → Option Part) (level : String) : Slot :=
  match owned .Storage with
  | some p => .part p
  | none => optToSlot (storageChoice reqs level filtered budget owned)

def caseSel (filtered parts : List Part) (budget : ℕ) (owned : Cat → Option Part)
    (level : String) : Slot :=
  match owned .Case with
  | some p => .part p
  | none => optToSlot (pickCaseForGpu (gpuSel filtered parts budget owned level).toOption filtered)

def psuSel (filtered parts : List Part) (budget : ℕ) (owned : Cat → Option Part)
    (level : String) (preferQuiet : Bool) : Slot :=
  match owned .PSU with
  | some p => .part p
  | none =>
    optToSlot (pickPsuForGpu (gpuSel filtered parts budget owned level).toOption
      filtered preferQuiet)

/-- The build after the per-category selection steps (lines 714-797).  Each
category is written once, by its own step, and later steps read only the
already-written CPU / Motherboard / GPU entries, so the sequential dict
updates are exactly this per-category dataflow. -/
def selectBuild (reqs : Reqs) (preferRgb preferQuiet : Bool) (filtered parts : List Part)
    (budget : ℕ) (owned : Cat → Option Part) (level : String) : Cat → Slot :=
  fun c =>
    match c with
    | .CPU => cpuSel filtered budget owned level
    | .Motherboard => moboSel filtered budget owned level
    | .RAM => ramSel reqs filtered budget owned level preferRgb
    | .GPU => gpuSel filtered parts budget owned level
    | .Storage => storageSel reqs filtered budget owned level
    | .Case => caseSel filtered parts budget owned level
    | .PSU => psuSel filtered parts budget owned level preferQuiet

/-- The cheapest-per-category fallback of lines 799-804: a `None` entry
becomes the cheapest catalog part of the category, or `{}` when the
category is absent from the catalog. -/
def fallbackSlot (parts : List Part) (c : Cat) (s : Slot) : Slot :=
  if s = .nil then
    match (sortByPrice (partsByCategory parts c.name))[0]? with
    | some p => .part p
    | none => .empty
  else s

/-- The build entering the budget reconciliation step. -/
def assembledBuild (reqs : Reqs) (preferRgb preferQuiet : Bool) (parts : List Part)
    (budget : ℕ) (owned : Cat → Option Part) (level : String) : Cat → Slot :=
  fun c =>
    fallbackSlot parts c
      (selectBuild reqs preferRgb preferQuiet (filteredOf reqs parts budget) parts
        budget owned level c)

/-- Lines 807-811: the total over the non-owned categories. -/
def totalOf (owned : Cat → Option Part) (b : Cat → Slot) : ℚ :=
  ((allCats.filter (fun c => (owned c).isNone)).map (fun c => (b c).price)).sum

def setSlot (b : Cat → Slot) (c : Cat) (s : Slot) : Cat → Slot :=
  fun c' => if c' = c then s else b c'

/-- The reconciliation loop of lines 813-833: one pass over the priority
list, substituting the cheapest strictly-cheaper positive-priced catalog
part for each non-owned category while the total exceeds the budget,
recomputing the total after each substitution. -/
def downgradeLoop (parts : List Part) (owned : Cat → Option Part) (budget : ℕ) :
    List Cat → (Cat → Slot) → ℚ → (Cat → Slot) × ℚ
  | [], b, t => (b, t)
  | c :: rest, b, t =>
    if t ≤ (budget : ℚ) then (b, t)
    else if (owned c).isSome then downgradeLoop parts owned budget rest b t
    else
      let curPrice := (b c).price
      let pool := partsByCategory parts c.name
      let cheaper :=
        sortByPrice (pool.filter (fun p => decide (0 < p.price_usd ∧ p.price_usd < curPrice)))
      match cheaper[0]? with
      | some ch =>
        let b2 := setSlot b c (.part ch)
        downgradeLoop parts owned budget rest b2 (totalOf owned b2)
      | none => downgradeLoop parts owned budget rest b t

/-- app.py `build_always`, with the message-derived inputs (`reqs0`,
`preferRgb`, `preferQuiet`) and the module-global catalog (`parts`) as
parameters.  Returns the build and the total of the non-owned entries. -/
def buildAlways (reqs0 : Reqs) (preferRgb preferQuiet : Bool) (parts : List Part)
    (budget : ℕ) (owned : Cat → Option Part) (level : String) : (Cat → Slot) × ℚ :=
  let reqs := tierTuning level reqs0
  let b := assembledBuild reqs preferRgb preferQuiet parts budget owned level
  let t := totalOf owned b
  if (budget : ℚ) < t then downgradeLoop parts owned budget allCats b t else (b, t)

/-! ### Concrete inputs used by witnesses and counterexamples -/

/-- A catalog holding a single CPU (so every other category is absent). -/
def w1cpu : Part := { id := "w1", category := "CPU", socket := "AM5", price_usd := 200 }

def w1Parts : List Part := [w1cpu]

/-- An owned GPU and the owned set that locks it. -/
def w2own : Part := { id := "w2", category := "GPU", vram_gb := 10, price_usd := 999 }

def w2owned : Cat → Option Part := fun c => if c = Cat.GPU then some w2own else none

def c3cpu : Part := { category := "CPU", socket := "AM5" }

def c3mobo : Part := { category := "Motherboard", socket := "AM5", ram_type := "DDR5" }

def c3ram : Part := { category := "RAM", ram_type := "DDR5" }

def c3case : Part := { category := "Case", max_gpu_length_mm := 400 }

/-- A build whose GPU entry is missing while the three present pairs are
mutually compatible. -/
def c3build : Cat → Slot := fun c =>
  match c with
  | .CPU => .part c3cpu
  | .Motherboard => .part c3mobo
  | .RAM => .part c3ram
  | .Case => .part c3case
  | _ => .nil

/-- A zero-priced high-VRAM GPU: the cheapest-fallback can select it, but
`pick_best_within` always skips it. -/
def gZ : Part := { id := "Z", category := "GPU", vram_gb := 20, price_usd := 0 }

def gB : Part := { id := "B", category := "GPU", vram_gb := 8, price_usd := 500 }

def c4Parts : List Part := [gZ, gB]

def c5cpu : Part := { id := "X", category := "CPU", price_usd := 100 }

def c5gA : Part := { id := "A", category := "GPU", vram_gb := 12, price_usd := 50 }

def c5gZ : Part := { id := "Z5", category := "GPU", vram_gb := 20, price_usd := 0 }

def c5Parts : List Part := [c5cpu, c5gA, c5gZ]

def reqs6 : Reqs := { defaultAnalysis with min_gpu_tier := "mid" }

def g6 : Part := { category := "GPU", vram_gb := 8, price_usd := 100 }

def w7cpu : Part := { category := "CPU", socket := "AM5" }

def w7mobo : Part := { category := "Motherboard", socket := "LGA1700" }

def w8p1 : Part := { id := "p1", category := "PSU", psu_wattage := 700, price_usd := 10 }

def w8p2 : Part := { id := "p2", category := "PSU", psu_wattage := 700, price_usd := 20 }

def w8p3 : Part := { id := "p3", category := "PSU", psu_wattage := 700, price_usd := 30 }

def w8Pool : List Part := [w8p1, w8p2, w8p3]

/-! ### General helper lemmas -/

set_option maxRecDepth 16000

theorem mem_sortByPrice {l : List Part} {p : Part} : p ∈ sortByPrice l ↔ p ∈ l :=
  (List.perm_insertionSort priceLE l).mem_iff

theorem sortByPrice_sorted (l : List Part) : (sortByPrice l).Sorted priceLE :=
  List.sorted_insertionSort priceLE l

theorem sortByPrice_length (l : List Part) : (sortByPrice l).length = l.length :=
  (List.perm_insertionSort priceLE l).length_eq

/-- The head of a price-sorted list has minimal price. -/
theorem sorted_min_of_head {s : List Part} (hs : s.Sorted priceLE) {h q : Part}
    (hh : s[0]? = some h) (hq : q ∈ s) : h.price_usd ≤ q.price_usd := by
  cases s with
  | nil => cases hh
  | cons a t =>
    have ha : a = h := by simpa using hh
    subst ha
    rcases List.mem_cons.mp hq with rfl | hq
    · exact le_refl _
    · exact List.rel_of_sorted_cons hs q hq

/-- The last element of a price-sorted list has maximal price. -/
theorem sorted_max_of_last {s : List Part} (hs : s.Sorted priceLE) {m q : Part}
    (hm : s[s.length - 1]? = some m) (hq : q ∈ s) : q.price_usd ≤ m.price_usd := by
  obtain ⟨hlt, hget⟩ := List.getElem?_eq_some_iff.mp hm
  obtain ⟨i, hi, hq'⟩ := List.mem_iff_getElem.mp hq
  subst hq'
  rcases Nat.lt_or_ge i (s.length - 1) with hlt' | hge
  · have := (List.pairwise_iff_getElem.mp hs) i (s.length - 1) hi hlt hlt'
    rw [hget] at this
    exact this
  · have : i = s.length - 1 := Nat.le_antisymm (Nat.le_sub_one_of_lt hi) hge
    subst this
    rw [hget]

/-- In a price-sorted list, at most `i` elements are strictly cheaper than
the element at index `i`. -/
theorem sorted_count_lt {s : List Part} (hs : s.Sorted priceLE) {i : ℕ} (hi : i < s.length)
    {r : ℚ} (hr : s[i].price_usd = r) :
    (s.filter (fun q => decide (q.price_usd < r))).length ≤ i := by
  conv_lhs => rw [← List.take_append_drop i s, List.filter_append, List.length_append]
  have hdrop : (s.drop i).filter (fun q => decide (q.price_usd < r)) = [] := by
    rw [List.filter_eq_nil_iff]
    intro q hq
    obtain ⟨j, hj, hq'⟩ := List.mem_iff_getElem.mp hq
    subst hq'
    rw [List.getElem_drop]
    simp only [decide_eq_true_eq, not_lt]
    rw [← hr]
    rcases Nat.eq_zero_or_pos j with rfl | hj0
    · simp
    · have hij : i < i + j := Nat.lt_add_of_pos_right hj0
      have hlen : i + j < s.length := by
        have := hj
        rw [List.length_drop] at this
        omega
      exact (List.pairwise_iff_getElem.mp hs) i (i + j) hi hlen hij
  rw [hdrop]
  simp only [List.length_nil, Nat.add_zero]
  calc ((s.take i).filter _).length ≤ (s.take i).length := List.length_filter_le _ _
    _ ≤ i := by rw [List.length_take]; omega

/-- In a price-sorted list, at most `length - 1 - i` elements are strictly
more expensive than the element at index `i`. -/
theorem sorted_count_gt {s : List Part} (hs : s.Sorted priceLE) {i : ℕ} (hi : i < s.length)
    {r : ℚ} (hr : s[i].price_usd = r) :
    (s.filter (fun q => decide (r < q.price_usd))).length ≤ s.length - 1 - i := by
  have hlen : s.length = (s.take i ++ s.drop i).length := by rw [List.take_append_drop]
  conv_lhs => rw [← List.take_append_drop i s, List.filter_append, List.length_append]
  have htake : (s.take i).filter (fun q => decide (r < q.price_usd)) = [] := by
    rw [List.filter_eq_nil_iff]
    intro q hq
    obtain ⟨j, hj, hq'⟩ := List.mem_iff_getElem.mp hq
    subst hq'
    have hj' : j < i := by rw [List.length_take] at hj; omega
    rw [List.getElem_take]
    simp only [decide_eq_true_eq, not_lt]
    rw [← hr]
    exact (List.pairwise_iff_getElem.mp hs) j i (by omega) hi hj'
  rw [htake]
  simp only [List.length_nil, Nat.zero_add]
  rw [List.drop_eq_getElem_cons hi]
  simp only [List.filter_cons]
  have hhead : (decide (r < s[i].price_usd)) = false := by simp [hr]
  rw [hhead]
  calc ((s.drop (i + 1)).filter _).length ≤ (s.drop (i + 1)).length := List.length_filter_le _ _
    _ ≤ s.length - 1 - i := by rw [List.length_drop]; omega

/-- In a price-sorted list, at least `i + 1` elements have price at most
that of the element at index `i`. -/
theorem sorted_count_le {s : List Part} (hs : s.Sorted priceLE) {i : ℕ} (hi : i < s.length)
    {r : ℚ} (hr : s[i].price_usd = r) :
    i + 1 ≤ (s.filter (fun q => decide (q.price_usd ≤ r))).length := by
  conv_rhs => rw [← List.take_append_drop (i + 1) s, List.filter_append, List.length_append]
  have htake : (s.take (i + 1)).filter (fun q => decide (q.price_usd ≤ r)) =
      s.take (i + 1) := by
    rw [List.filter_eq_self]
    intro q hq
    obtain ⟨j, hj, hq'⟩ := List.mem_iff_getElem.mp hq
    subst hq'
    have hj' : j < i + 1 := by rw [List.length_take] at hj; omega
    rw [List.getElem_take]
    simp only [decide_eq_true_eq]
    rw [← hr]
    rcases Nat.lt_or_ge j i with hlt | hge
    · exact (List.pairwise_iff_getElem.mp hs) j i (by omega) hi hlt
    · have : j = i := by omega
      subst this
      exact le_refl _
  rw [htake]
  have : (s.take (i + 1)).length = i + 1 := by rw [List.length_take]; omega
  omega

theorem pbwStep_fst (cap : ℚ) (score : Part → ℚ) (acc : Option Part × ℚ) (it : Part) :
    ((if it.price_usd ≤ 0 then acc
      else if cap < it.price_usd then acc
      else if acc.2 < score it then (some it, score it) else acc) : Option Part × ℚ).1 = acc.1 ∨
    ((if it.price_usd ≤ 0 then acc
      else if cap < it.price_usd then acc
      else if acc.2 < score it then (some it, score it) else acc) : Option Part × ℚ).1 = some it := by
  split
  · exact Or.inl rfl
  · split
    · exact Or.inl rfl
    · split
      · exact Or.inr rfl
      · exact Or.inl rfl

theorem pickBestWithin_mem {items : List Part} {cap : ℚ} {score : Part → ℚ} {p : Part}
    (h : pickBestWithin items cap score = some p) : p ∈ items := by
  unfold pickBestWithin at h
  suffices H : ∀ (l : List Part) (acc : Option Part × ℚ),
      (l.foldl (fun acc it =>
        if it.price_usd ≤ 0 then acc
        else if cap < it.price_usd then acc
        else if acc.2 < score it then (some it, score it) else acc) acc).1 = some p →
      p ∈ l ∨ acc.1 = some p by
    rcases H items ((none : Option Part), -(10 ^ 18 : ℚ)) h with hm | hnone
    · exact hm
    · cases hnone
  intro l
  induction l with
  | nil => intro acc h; exact Or.inr h
  | cons it rest ih =>
    intro acc h
    rw [List.foldl_cons] at h
    rcases ih _ h with hm | hstep
    · exact Or.inl (List.mem_cons_of_mem _ hm)
    · rcases pbwStep_fst cap score acc it with he | he <;> rw [he] at hstep
      · exact Or.inr hstep
      · exact Or.inl (by simp_all)

/-- Filtering by another predicate preserves category-emptiness. -/
theorem partsByCategory_filter_nil {parts : List Part} {s : String} {f : Part → Bool}
    (h : partsByCategory parts s = []) : partsByCategory (parts.filter f) s = [] := by
  unfold partsByCategory at h ⊢
  rw [List.filter_eq_nil_iff] at h ⊢
  intro a ha
  exact h a (List.mem_of_mem_filter ha)

theorem filteredOf_category_nil {reqs : Reqs} {parts : List Part} {budget : ℕ} {s : String}
    (h : partsByCategory parts s = []) :
    partsByCategory (filteredOf reqs parts budget) s = [] := by
  unfold filteredOf recommendPartsForRequirements
  dsimp only
  split
  · exact h
  · exact partsByCategory_filter_nil h

/-! ### Claim C9: the level adjustment -/

/-- C9.  Level `minimum` sets `recommended_ram` to `max 16 min_ram`, level
`high_end` sets `recommended_ram` to `max 32 recommended_ram`, forces the
GPU tier to `high` and the storage type to `NVMe`; no other profile field
is changed by `tierTuning`. -/
theorem c9_level_adjustment (reqs : Reqs) :
    tierTuning "minimum" reqs = { reqs with recommended_ram := max 16 reqs.min_ram } ∧
    tierTuning "high_end" reqs =
      { reqs with recommended_ram := max 32 reqs.recommended_ram,
                  min_gpu_tier := "high", storage_type := "NVMe" } := by
  obtain ⟨m, r, cc, v, t, st⟩ := reqs
  constructor
  · simp [tierTuning, Reqs.mk.injEq]
    split <;> omega
  · simp [tierTuning, Reqs.mk.injEq]
    split <;> omega

/-! ### Claim C10: the two RAM-type normalizers -/

/-- C10 counterexample.  The two normalizers disagree on the input
`"DDR3"`: compat.py returns `{"DDR3"}`, app.py returns `∅`. -/
theorem c10_ram_type_counterexample :
    ramTypeSetCompat "DDR3" ≠ ramTypeSetApp "DDR3" := by decide

/-- C10 amended.  The two normalizers agree on the RAM-type strings the
parts data actually uses — empty, `DDR4`, `DDR5` and the slash or comma
combinations, in any letter case and with surrounding whitespace — though
not on arbitrary strings. -/
theorem c10_ram_type_agree :
    ∀ v ∈ (["", "DDR4", "DDR5", "ddr4", "ddr5", "DDR4/DDR5", "DDR5/DDR4",
            "ddr4/ddr5", " DDR4 ", "DDR4,DDR5"] : List String),
      ramTypeSetCompat v = ramTypeSetApp v := by decide

theorem c10_ram_type_agree_witness :
    ramTypeSetCompat "DDR4/DDR5" = ramTypeSetApp "DDR4/DDR5" :=
  c10_ram_type_agree "DDR4/DDR5" (by decide)

/-! ### Claim C3: missing operands in the compatibility checks -/

/-- C3 counterexample.  A build with a missing GPU entry (an operand of the
GPU-Case check) whose report is fully compatible with zero issues: the
GPU-Case check silently passes on a missing operand instead of reporting
incompatible. -/
theorem c3_missing_operand_counterexample :
    (c3build Cat.GPU).falsy = true ∧
    gpuCase (c3build Cat.GPU) (c3build Cat.Case) = (true, "") ∧
    checkFullBuildCompatibility c3build = { compatible := true, issues := [] } := by
  decide

/-- C3 amended.  A missing operand makes the CPU-Motherboard and
RAM-Motherboard checks report incompatible with a missing-part message,
but the GPU-Case check silently passes when the GPU or the Case is
missing. -/
theorem c3_missing_operand (a b : Slot) :
    (a.falsy = true ∨ b.falsy = true →
      cpuMobo a b = (false, "CPU or motherboard missing") ∧
      ramMobo a b = (false, "RAM or motherboard missing")) ∧
    (a.falsy = true ∨ b.falsy = true → gpuCase a b = (true, "")) := by
  constructor <;> intro h <;> rcases h with h | h <;>
    simp [cpuMobo, ramMobo, gpuCase, h]

theorem c3_missing_operand_witness :
    cpuMobo Slot.nil Slot.nil = (false, "CPU or motherboard missing") ∧
    gpuCase Slot.nil (Slot.part c3case) = (true, "") :=
  ⟨((c3_missing_operand Slot.nil Slot.nil).1 (Or.inl rfl)).1,
   (c3_missing_operand Slot.nil (Slot.part c3case)).2 (Or.inl rfl)⟩

/-! ### Claim C7: the aggregated report -/

/-- C7.  The report's issues are the triggered messages in the fixed check
order (CPU-Motherboard, RAM-Motherboard, GPU-Case), the `compatible` flag
is true exactly when the issues list is empty, and a socket mismatch
message names both socket values. -/
theorem c7_report (b : Cat → Slot) :
    ((checkFullBuildCompatibility b).compatible = true ↔
      (checkFullBuildCompatibility b).issues = []) ∧
    (checkFullBuildCompatibility b).issues =
      (if (cpuMobo (b .CPU) (b .Motherboard)).1 then []
        else [(cpuMobo (b .CPU) (b .Motherboard)).2]) ++
      (if (ramMobo (b .RAM) (b .Motherboard)).1 then []
        else [(ramMobo (b .RAM) (b .Motherboard)).2]) ++
      (if (gpuCase (b .GPU) (b .Case)).1 then []
        else [(gpuCase (b .GPU) (b .Case)).2]) ∧
    (∀ p q : Part, trimStr p.socket ≠ trimStr q.socket →
      cpuMobo (.part p) (.part q) =
        (false, "Socket mismatch (" ++ p.socket ++ " vs " ++ q.socket ++ ")")) := by
  refine ⟨?_, ?_, ?_⟩
  · unfold checkFullBuildCompatibility
    simp only [beq_iff_eq, List.length_eq_zero]
  · unfold checkFullBuildCompatibility
    split <;> split <;> split <;> simp_all
  · intro p q h
    simp [cpuMobo, Slot.falsy, Slot.socketStr, h]

theorem c7_report_witness :
    cpuMobo (.part w7cpu) (.part w7mobo) =
      (false, "Socket mismatch (" ++ w7cpu.socket ++ " vs " ++ w7mobo.socket ++ ")") :=
  (c7_report (fun _ => Slot.nil)).2.2 w7cpu w7mobo (by decide)

/-! ### Claim C6: the GPU candidate filter -/

/-- C6 counterexample.  At budget 0 with a non-high tier, a GPU priced
above 80% of the budget (any positive price exceeds `0 * 0.80`) is kept:
the price cut is skipped when the budget is 0, because `if budget and ...`
is false for `budget == 0`. -/
theorem c6_gpu_filter_counterexample :
    g6 ∈ recommendPartsForRequirements reqs6 [g6] 0 ∧
    reqs6.min_gpu_tier ≠ "high" ∧
    ((0 : ℕ) : ℚ) * (80 / 100) < g6.price_usd := by
  refine ⟨by decide, by decide, ?_⟩
  show ((0 : ℕ) : ℚ) * (80 / 100) < 100
  norm_num

/-- C6 amended.  A GPU part is kept by the filter exactly when its VRAM
meets the profile requirement (when positive), meets the tier floor
(12/8/4 GB for high/mid/low), and — when the budget is positive and the
tier is not high — its price does not exceed 80% of the budget.  (The
original claim extends the price cut to budget 0; the code skips it
there.) -/
theorem c6_gpu_filter (reqs : Reqs) (parts : List Part) (budget : ℕ) (p : Part)
    (hcat : p.category = "GPU") :
    p ∈ recommendPartsForRequirements reqs parts budget ↔
      p ∈ parts ∧
      ¬(0 < reqs.gpu_vram ∧ p.vram_gb < reqs.gpu_vram) ∧
      ¬(reqs.min_gpu_tier = "high" ∧ p.vram_gb < 12) ∧
      ¬(reqs.min_gpu_tier = "mid" ∧ p.vram_gb < 8) ∧
      ¬(reqs.min_gpu_tier = "low" ∧ p.vram_gb < 4) ∧
      ¬(0 < budget ∧ reqs.min_gpu_tier ≠ "high" ∧
          (budget : ℚ) * (80 / 100) < p.price_usd) := by
  unfold recommendPartsForRequirements
  rw [List.mem_filter]
  unfold recommendKeep
  rw [hcat]
  simp only [show (("GPU" : String) == "RAM") = false from rfl,
    show (("GPU" : String) == "GPU") = true from rfl,
    Bool.false_and, Bool.true_and]
  rw [if_neg (by simp : ¬(false = true))]
  constructor
  · rintro ⟨hmem, hkeep⟩
    refine ⟨hmem, ?_⟩
    split at hkeep
    · cases hkeep
    · rename_i hor
      rw [Bool.not_eq_true] at hor
      simp only [Bool.or_eq_false_iff, Bool.and_eq_false_iff, decide_eq_false_iff_not,
        not_lt, beq_eq_false_iff_ne, ne_eq, Bool.not_eq_false', beq_iff_eq,
        Decidable.not_not, not_le] at hor
      obtain ⟨⟨⟨⟨h1, h2⟩, h3⟩, h4⟩, h5⟩ := hor
      refine ⟨h1, ?_, ?_, ?_, ?_⟩
      · rintro ⟨ht, hv⟩
        rcases h2 with ht' | hge
        · exact ht' ht
        · omega
      · rintro ⟨ht, hv⟩
        rcases h3 with ht' | hge
        · exact ht' ht
        · omega
      · rintro ⟨ht, hv⟩
        rcases h4 with ht' | hge
        · exact ht' ht
        · omega
      · rintro ⟨hb, ht, hp⟩
        rcases h5 with (hb0 | ht') | hle
        · omega
        · exact ht ht'
        · exact absurd hp (not_lt.mpr hle)
  · rintro ⟨hmem, h1, h2, h3, h4, h5⟩
    refine ⟨hmem, ?_⟩
    split
    · rename_i hC
      exfalso
      simp only [Bool.or_eq_true, Bool.and_eq_true, decide_eq_true_eq, beq_iff_eq,
        Bool.not_eq_true', beq_eq_false_iff_ne, ne_eq] at hC
      rcases hC with (((hv | ⟨ht, hv⟩) | ⟨ht, hv⟩) | ⟨ht, hv⟩) | ⟨⟨hb, ht⟩, hp⟩
      · exact h1 hv
      · exact h2 ⟨ht, hv⟩
      · exact h3 ⟨ht, hv⟩
      · exact h4 ⟨ht, hv⟩
      · exact h5 ⟨by omega, ht, hp⟩
    · rfl

theorem c6_gpu_filter_witness :
    g6 ∈ recommendPartsForRequirements reqs6 [g6] 200 :=
  (c6_gpu_filter reqs6 [g6] 200 g6 rfl).mpr
    ⟨by decide, by decide, by decide, by decide, by decide,
     by
      rintro ⟨-, -, hp⟩
      rw [show g6.price_usd = 100 from rfl] at hp
      norm_num at hp⟩

/-! ### Claim C8: PSU selection -/

/-- C8.  `pick_psu_for_gpu` returns nothing exactly when the pool has no
PSU; otherwise the picked PSU comes from the candidate pool (qualifying
PSUs, or all PSUs when none meets the required wattage), meets the
required wattage whenever some PSU does, is the most expensive candidate
under prefer-quiet, and otherwise is the 3rd-cheapest candidate — at most
two candidates are strictly cheaper, at least three have price at most
its own when three or more exist, and it is the most expensive (the last)
when fewer than three exist. -/
theorem c8_psu_selection (gpu : Option Part) (pool : List Part) (quiet : Bool) :
    (pickPsuForGpu gpu pool quiet = none ↔ partsByCategory pool "PSU" = []) ∧
    (∀ r, pickPsuForGpu gpu pool quiet = some r →
      r ∈ psuCandidates gpu pool ∧
      (psuQualified gpu pool ≠ [] → psuNeed gpu ≤ r.psu_wattage) ∧
      (quiet = true → ∀ q ∈ psuCandidates gpu pool, q.price_usd ≤ r.price_usd) ∧
      (quiet = false →
        ((psuCandidates gpu pool).filter
            (fun q => decide (q.price_usd < r.price_usd))).length ≤ 2 ∧
        ((psuCandidates gpu pool).length ≤ 2 →
          ∀ q ∈ psuCandidates gpu pool, q.price_usd ≤ r.price_usd) ∧
        (3 ≤ (psuCandidates gpu pool).length →
          3 ≤ ((psuCandidates gpu pool).filter
              (fun q => decide (q.price_usd ≤ r.price_usd))).length))) := by
  unfold pickPsuForGpu
  by_cases hps : partsByCategory pool "PSU" = []
  · rw [if_pos hps]
    exact ⟨⟨fun _ => hps, fun _ => rfl⟩, fun r hr => by cases hr⟩
  · rw [if_neg hps]
    have hcne : psuCandidates gpu pool ≠ [] := by
      unfold psuCandidates
      split
      · exact hps
      · assumption
    have hsperm : (sortByPrice (psuCandidates gpu pool)).Perm (psuCandidates gpu pool) :=
      List.perm_insertionSort _ _
    have hslen : (sortByPrice (psuCandidates gpu pool)).length =
        (psuCandidates gpu pool).length := hsperm.length_eq
    have hclen : (psuCandidates gpu pool).length ≠ 0 :=
      fun h => hcne (List.length_eq_zero.mp h)
    have hsorted := sortByPrice_sorted (psuCandidates gpu pool)
    constructor
    · constructor
      · intro hnone
        exfalso
        split at hnone <;>
          · rw [List.getElem?_eq_none_iff] at hnone
            omega
      · intro h
        exact absurd h hps
    · intro r hr
      have hrc : r ∈ psuCandidates gpu pool := by
        split at hr <;> exact hsperm.mem_iff.mp (List.getElem?_mem hr)
      have hwatt : psuQualified gpu pool ≠ [] → psuNeed gpu ≤ r.psu_wattage := by
        intro hqne
        have : r ∈ psuQualified gpu pool := by
          have : psuCandidates gpu pool = psuQualified gpu pool := by
            unfold psuCandidates
            rw [if_neg hqne]
          rwa [this] at hrc
        have := List.mem_filter.mp this
        simpa using this.2
      refine ⟨hrc, hwatt, ?_, ?_⟩
      · intro hq
        rw [hq] at hr
        rw [if_pos rfl] at hr
        intro q hqc
        exact sorted_max_of_last hsorted hr (hsperm.mem_iff.mpr hqc)
      · intro hq
        rw [hq] at hr
        rw [if_neg (by simp)] at hr
        refine ⟨?_, ?_, ?_⟩
        · obtain ⟨hi, hget⟩ := List.getElem?_eq_some_iff.mp hr
          have hr' : (sortByPrice (psuCandidates gpu pool))[min
              ((sortByPrice (psuCandidates gpu pool)).length - 1) 2].price_usd =
              r.price_usd := by
            rw [hget]
          calc ((psuCandidates gpu pool).filter
                (fun q => decide (q.price_usd < r.price_usd))).length
              = ((sortByPrice (psuCandidates gpu pool)).filter
                (fun q => decide (q.price_usd < r.price_usd))).length :=
                  (hsperm.filter _).length_eq.symm
            _ ≤ min ((sortByPrice (psuCandidates gpu pool)).length - 1) 2 :=
                  sorted_count_lt hsorted hi hr'
            _ ≤ 2 := Nat.min_le_right _ _
        · intro hlen2
          have hieq : min ((sortByPrice (psuCandidates gpu pool)).length - 1) 2 =
              (sortByPrice (psuCandidates gpu pool)).length - 1 := by omega
          rw [hieq] at hr
          intro q hqc
          exact sorted_max_of_last hsorted hr (hsperm.mem_iff.mpr hqc)
        · intro hlen3
          have hieq : min ((sortByPrice (psuCandidates gpu pool)).length - 1) 2 = 2 := by
            omega
          rw [hieq] at hr
          obtain ⟨hi2, hget2⟩ := List.getElem?_eq_some_iff.mp hr
          have hr2 : (sortByPrice (psuCandidates gpu pool))[2].price_usd = r.price_usd := by
            rw [hget2]
          calc (3 : ℕ) = 2 + 1 := rfl
            _ ≤ ((sortByPrice (psuCandidates gpu pool)).filter
                (fun q => decide (q.price_usd ≤ r.price_usd))).length :=
                  sorted_count_le hsorted hi2 hr2
            _ = ((psuCandidates gpu pool).filter
                (fun q => decide (q.price_usd ≤ r.price_usd))).length :=
                  (hsperm.filter _).length_eq

theorem c8_psu_selection_witness :
    psuNeed none ≤ w8p3.psu_wattage ∧ w8p3 ∈ psuCandidates none w8Pool := by
  have h := (c8_psu_selection none w8Pool false).2 w8p3 (by decide)
  exact ⟨h.2.1 (by decide), h.1⟩

/-! ### Helper lemmas about the build pipeline -/

theorem mem_allCats (c : Cat) : c ∈ allCats := by cases c <;> simp [allCats]

theorem setSlot_same (b : Cat → Slot) (c : Cat) (s : Slot) : setSlot b c s c = s := by
  simp [setSlot]

theorem setSlot_ne (b : Cat → Slot) {c c' : Cat} (s : Slot) (h : c' ≠ c) :
    setSlot b c s c' = b c' := by
  simp [setSlot, h]

theorem weights_nonneg (c : Cat) : 0 ≤ weights c := by
  cases c <;> norm_num [weights]

theorem weightSum_nonneg (owned : Cat → Option Part) : 0 ≤ weightSum owned := by
  unfold weightSum
  dsimp only
  split
  · norm_num
  · apply List.sum_nonneg
    intro x hx
    obtain ⟨c, _, rfl⟩ := List.mem_map.mp hx
    exact weights_nonneg c

theorem selCap_eq_min (budget : ℕ) (a m : ℚ) : selCap budget a m = min (budget : ℚ) (a * m) := by
  unfold selCap
  rw [min_def]

/-- `cpu_choice` yields nothing when the filtered pool has no CPU. -/
theorem cpuChoice_nil {filtered : List Part} {budget : ℕ} {owned : Cat → Option Part}
    {level : String} (h : partsByCategory filtered "CPU" = []) :
    cpuChoice filtered budget owned level = none := by
  unfold cpuChoice
  rw [h]
  rfl

theorem pickMoboForCpu_nil {cpu : Slot} {pool : List Part} {pr : Option String}
    (h : partsByCategory pool "Motherboard" = []) : pickMoboForCpu cpu pool pr = none := by
  unfold pickMoboForCpu
  rw [h]
  cases pr <;> rfl

theorem moboChoice_nil {cpu : Slot} {filtered : List Part} {budget : ℕ}
    (h : partsByCategory filtered "Motherboard" = []) : moboChoice cpu filtered budget = none := by
  unfold moboChoice
  simp only [pickMoboForCpu_nil h, h]
  rfl

theorem pickRamForMobo_nil {mobo : Slot} {pool : List Part} {needGb : ℕ} {preferRgb : Bool}
    {cap : ℚ} (h : partsByCategory pool "RAM" = []) :
    pickRamForMobo mobo pool needGb preferRgb cap = none := by
  unfold pickRamForMobo
  rw [h]
  rfl

theorem ramChoice_nil {mobo : Slot} {reqs : Reqs} {level : String} {filtered : List Part}
    {budget : ℕ} {owned : Cat → Option Part} {preferRgb : Bool}
    (h : partsByCategory filtered "RAM" = []) :
    ramChoice mobo reqs level filtered budget owned preferRgb = none := by
  unfold ramChoice
  simp only [pickRamForMobo_nil h, h]
  rfl

theorem gpuChoice_nil {filtered parts : List Part} {budget : ℕ} {owned : Cat → Option Part}
    {level : String} (hf : partsByCategory filtered "GPU" = [])
    (hp : partsByCategory parts "GPU" = []) :
    gpuChoice filtered parts budget owned level = none := by
  unfold gpuChoice
  rw [hf, hp]
  rfl

theorem storageChoice_nil {reqs : Reqs} {level : String} {filtered : List Part} {budget : ℕ}
    {owned : Cat → Option Part} (h : partsByCategory filtered "Storage" = []) :
    storageChoice reqs level filtered budget owned = none := by
  unfold storageChoice
  rw [h]
  rfl

theorem pickCaseForGpu_nil {gpu : Option Part} {pool : List Part}
    (h : partsByCategory pool "Case" = []) : pickCaseForGpu gpu pool = none := by
  unfold pickCaseForGpu
  rw [h]
  rfl

theorem pickPsuForGpu_nil {gpu : Option Part} {pool : List Part} {quiet : Bool}
    (h : partsByCategory pool "PSU" = []) : pickPsuForGpu gpu pool quiet = none := by
  unfold pickPsuForGpu
  rw [h]
  rfl

/-- Owned categories come out of the selection steps untouched. -/
theorem selectBuild_owned {reqs : Reqs} {preferRgb preferQuiet : Bool}
    {filtered parts : List Part} {budget : ℕ} {owned : Cat → Option Part} {level : String}
    {c : Cat} {p : Part} (h : owned c = some p) :
    selectBuild reqs preferRgb preferQuiet filtered parts budget owned level c =
      Slot.part p := by
  cases c <;>
    simp [selectBuild, cpuSel, moboSel, ramSel, gpuSel, storageSel, caseSel, psuSel, h]

/-- A non-owned category whose catalog pool is empty is still `None` after
all selection steps. -/
theorem selectBuild_nil_of_empty {reqs : Reqs} {preferRgb preferQuiet : Bool}
    {parts : List Part} {budget : ℕ} {owned : Cat → Option Part} {level : String}
    {c : Cat} (hown : owned c = none) (hpool : partsByCategory parts c.name = []) :
    selectBuild reqs preferRgb preferQuiet (filteredOf reqs parts budget) parts budget
      owned level c = Slot.nil := by
  cases c
  · simp only [Cat.name] at hpool
    simp [selectBuild, cpuSel, hown, cpuChoice_nil (filteredOf_category_nil hpool), optToSlot]
  · simp only [Cat.name] at hpool
    simp [selectBuild, gpuSel, hown,
      gpuChoice_nil (filteredOf_category_nil hpool) hpool, optToSlot]
  · simp only [Cat.name] at hpool
    simp [selectBuild, moboSel, hown, moboChoice_nil (filteredOf_category_nil hpool), optToSlot]
  · simp only [Cat.name] at hpool
    simp [selectBuild, ramSel, hown, ramChoice_nil (filteredOf_category_nil hpool), optToSlot]
  · simp only [Cat.name] at hpool
    simp [selectBuild, storageSel, hown,
      storageChoice_nil (filteredOf_category_nil hpool), optToSlot]
  · simp only [Cat.name] at hpool
    simp [selectBuild, psuSel, hown,
      pickPsuForGpu_nil (filteredOf_category_nil hpool), optToSlot]
  · simp only [Cat.name] at hpool
    simp [selectBuild, caseSel, hown,
      pickCaseForGpu_nil (filteredOf_category_nil hpool), optToSlot]

theorem fallbackSlot_ne_nil (parts : List Part) (c : Cat) (s : Slot) :
    fallbackSlot parts c s ≠ Slot.nil := by
  unfold fallbackSlot
  split
  · split <;> simp
  · assumption

theorem assembledBuild_ne_nil (reqs : Reqs) (preferRgb preferQuiet : Bool)
    (parts : List Part) (budget : ℕ) (owned : Cat → Option Part) (level : String) (c : Cat) :
    assembledBuild reqs preferRgb preferQuiet parts budget owned level c ≠ Slot.nil :=
  fallbackSlot_ne_nil parts c _

theorem assembledBuild_owned {reqs : Reqs} {preferRgb preferQuiet : Bool}
    {parts : List Part} {budget : ℕ} {owned : Cat → Option Part} {level : String}
    {c : Cat} {p : Part} (h : owned c = some p) :
    assembledBuild reqs preferRgb preferQuiet parts budget owned level c = Slot.part p := by
  unfold assembledBuild
  rw [selectBuild_owned h]
  rfl

theorem assembledBuild_empty {reqs : Reqs} {preferRgb preferQuiet : Bool}
    {parts : List Part} {budget : ℕ} {owned : Cat → Option Part} {level : String}
    {c : Cat} (hown : owned c = none) (hpool : partsByCategory parts c.name = []) :
    assembledBuild reqs preferRgb preferQuiet parts budget owned level c = Slot.empty := by
  unfold assembledBuild
  rw [selectBuild_nil_of_empty hown hpool]
  unfold fallbackSlot
  rw [if_pos rfl, hpool]
  rfl

/-- One unfolding step of the reconciliation loop. -/
theorem downgradeLoop_cons (parts : List Part) (owned : Cat → Option Part) (budget : ℕ)
    (c : Cat) (rest : List Cat) (b : Cat → Slot) (t : ℚ) :
    downgradeLoop parts owned budget (c :: rest) b t =
      if t ≤ (budget : ℚ) then (b, t)
      else if (owned c).isSome then downgradeLoop parts owned budget rest b t
      else
        match (sortByPrice ((partsByCategory parts c.name).filter
            (fun p => decide (0 < p.price_usd ∧ p.price_usd < (b c).price))))[0]? with
        | some ch =>
          downgradeLoop parts owned budget rest (setSlot b c (.part ch))
            (totalOf owned (setSlot b c (.part ch)))
        | none => downgradeLoop parts owned budget rest b t := rfl

theorem dgl_ne_nil {parts : List Part} {owned : Cat → Option Part} {budget : ℕ}
    (l : List Cat) (b : Cat → Slot) (t : ℚ) (hb : ∀ c, b c ≠ Slot.nil) (c : Cat) :
    (downgradeLoop parts owned budget l b t).1 c ≠ Slot.nil := by
  induction l generalizing b t with
  | nil => exact hb c
  | cons c' rest ih =>
    rw [downgradeLoop_cons]
    split
    · exact hb c
    · split
      · exact ih b t hb
      · split
        · refine ih _ _ ?_
          intro c''
          by_cases hc : c'' = c'
          · subst hc
            rw [setSlot_same]
            simp
          · rw [setSlot_ne _ _ hc]
            exact hb c''
        · exact ih b t hb

theorem dgl_owned {parts : List Part} {owned : Cat → Option Part} {budget : ℕ}
    (l : List Cat) (b : Cat → Slot) (t : ℚ) {c : Cat} (hc : (owned c).isSome) :
    (downgradeLoop parts owned budget l b t).1 c = b c := by
  induction l generalizing b t with
  | nil => rfl
  | cons c' rest ih =>
    rw [downgradeLoop_cons]
    split
    · rfl
    · split
      · exact ih b t
      · rename_i hno
        split
        · rw [ih _ _]
          have hne : c ≠ c' := by
            intro h
            subst h
            rw [hc] at hno
            exact hno rfl
          exact setSlot_ne _ _ hne
        · exact ih b t

theorem dgl_total {parts : List Part} {owned : Cat → Option Part} {budget : ℕ}
    (l : List Cat) (b : Cat → Slot) (t : ℚ) (ht : t = totalOf owned b) :
    (downgradeLoop parts owned budget l b t).2 =
      totalOf owned (downgradeLoop parts owned budget l b t).1 := by
  induction l generalizing b t with
  | nil => exact ht
  | cons c' rest ih =>
    rw [downgradeLoop_cons]
    split
    · exact ht
    · split
      · exact ih b t ht
      · split
        · exact ih _ _ rfl
        · exact ih b t ht

theorem dgl_unchanged {parts : List Part} {owned : Cat → Option Part} {budget : ℕ}
    (l : List Cat) (b : Cat → Slot) (t : ℚ) {c : Cat} (hc : c ∉ l) :
    (downgradeLoop parts owned budget l b t).1 c = b c := by
  induction l generalizing b t with
  | nil => rfl
  | cons c' rest ih =>
    have hne : c ≠ c' := fun h => hc (h ▸ List.mem_cons_self c' rest)
    have hrest : c ∉ rest := fun h => hc (List.mem_cons_of_mem c' h)
    rw [downgradeLoop_cons]
    split
    · rfl
    · split
      · exact ih b t hrest
      · split
        · rw [ih _ _ hrest]
          exact setSlot_ne _ _ hne
        · exact ih b t hrest

theorem dgl_pool_empty {parts : List Part} {owned : Cat → Option Part} {budget : ℕ}
    (l : List Cat) (b : Cat → Slot) (t : ℚ) {c : Cat}
    (hp : partsByCategory parts c.name = []) :
    (downgradeLoop parts owned budget l b t).1 c = b c := by
  induction l generalizing b t with
  | nil => rfl
  | cons c' rest ih =>
    rw [downgradeLoop_cons]
    split
    · rfl
    · split
      · exact ih b t
      · by_cases hcc : c' = c
        · subst hcc
          rw [hp]
          have : (sortByPrice (List.filter
              (fun p => decide (0 < p.price_usd ∧ p.price_usd < (b c').price)) []))[0]? =
              (none : Option Part) := rfl
          rw [this]
          exact ih b t
        · split
          · rw [ih _ _]
            exact setSlot_ne _ _ (fun h => hcc h.symm)
          · exact ih b t

/-- The reconciliation postcondition: when the loop stops above budget,
no category it visited still has a positive-priced strictly cheaper
catalog part. -/
theorem dgl_post {parts : List Part} {owned : Cat → Option Part} {budget : ℕ} :
    ∀ (l : List Cat) (b : Cat → Slot) (t : ℚ),
      (budget : ℚ) < (downgradeLoop parts owned budget l b t).2 →
      ∀ c ∈ l, owned c = none →
      ∀ p ∈ partsByCategory parts c.name,
        ¬(0 < p.price_usd ∧
          p.price_usd < ((downgradeLoop parts owned budget l b t).1 c).price) := by
  intro l
  induction l with
  | nil => intro b t _ c hc; cases hc
  | cons c' rest ih =>
    intro b t hover c hcl hown
    rw [downgradeLoop_cons] at hover ⊢
    split at hover
    · rename_i hle
      rw [if_pos hle]
      exact absurd hover (not_lt.mpr hle)
    · rename_i hgt
      rw [if_neg hgt]
      split at hover
      · rename_i hsome
        rw [if_pos hsome]
        rcases List.mem_cons.mp hcl with rfl | hcr
        · rw [hown] at hsome
          cases hsome
        · exact ih _ _ hover c hcr hown
      · rename_i hnosome
        rw [if_neg hnosome]
        split at hover
        · rename_i ch hch
          by_cases hcr : c ∈ rest
          · exact ih _ _ hover c hcr hown
          · have hc' : c = c' := by
              rcases List.mem_cons.mp hcl with rfl | h
              · rfl
              · exact absurd h hcr
            subst hc'
            rw [dgl_unchanged rest _ _ hcr, setSlot_same]
            rintro p hp ⟨hp0, hplt⟩
            have hsorted := sortByPrice_sorted ((partsByCategory parts c.name).filter
              (fun p => decide (0 < p.price_usd ∧ p.price_usd < (b c).price)))
            have hchmem : ch ∈ (partsByCategory parts c.name).filter
                (fun p => decide (0 < p.price_usd ∧ p.price_usd < (b c).price)) :=
              (List.perm_insertionSort priceLE _).mem_iff.mp (List.getElem?_mem hch)
            have hchprop := (List.mem_filter.mp hchmem).2
            simp only [decide_eq_true_eq] at hchprop
            have hpmem : p ∈ (partsByCategory parts c.name).filter
                (fun p => decide (0 < p.price_usd ∧ p.price_usd < (b c).price)) := by
              rw [List.mem_filter]
              refine ⟨hp, ?_⟩
              simp only [decide_eq_true_eq]
              exact ⟨hp0, lt_trans hplt hchprop.2⟩
            have hmin := sorted_min_of_head hsorted hch
              ((List.perm_insertionSort priceLE _).mem_iff.mpr hpmem)
            simp only [Slot.price] at hplt
            exact absurd hplt (not_lt.mpr hmin)
        · rename_i hch
          by_cases hcr : c ∈ rest
          · exact ih _ _ hover c hcr hown
          · have hc' : c = c' := by
              rcases List.mem_cons.mp hcl with rfl | h
              · rfl
              · exact absurd h hcr
            subst hc'
            rw [dgl_unchanged rest b t hcr]
            rintro p hp ⟨hp0, hplt⟩
            have hnil : (partsByCategory parts c.name).filter
                (fun p => decide (0 < p.price_usd ∧ p.price_usd < (b c).price)) = [] := by
              have hlen := sortByPrice_length ((partsByCategory parts c.name).filter
                (fun p => decide (0 < p.price_usd ∧ p.price_usd < (b c).price)))
              rw [List.getElem?_eq_none_iff] at hch
              rw [← List.length_eq_zero]
              omega
            rw [List.filter_eq_nil_iff] at hnil
            exact hnil p hp (by simp [hp0, hplt])

/-! ### Claim C1: one entry per category, placeholder on empty -/

/-- C1.  For every catalog (in particular every non-empty one), every
budget, owned set and level, `build_always` returns a build whose every
category entry is non-null, and a category entirely absent from the
catalog gets the `{}` placeholder instead of an exception. -/
theorem c1_build_complete (reqs0 : Reqs) (preferRgb preferQuiet : Bool) (parts : List Part)
    (budget : ℕ) (owned : Cat → Option Part) (level : String) (c : Cat) :
    (buildAlways reqs0 preferRgb preferQuiet parts budget owned level).1 c ≠ Slot.nil ∧
    (owned c = none → partsByCategory parts c.name = [] →
      (buildAlways reqs0 preferRgb preferQuiet parts budget owned level).1 c =
        Slot.empty) := by
  unfold buildAlways
  dsimp only
  split
  · constructor
    · exact dgl_ne_nil allCats _ _
        (fun c' => assembledBuild_ne_nil _ _ _ _ _ _ _ c') c
    · intro hown hpool
      rw [dgl_pool_empty allCats _ _ hpool]
      exact assembledBuild_empty hown hpool
  · constructor
    · exact assembledBuild_ne_nil _ _ _ _ _ _ _ c
    · intro hown hpool
      exact assembledBuild_empty hown hpool

theorem c1_build_complete_witness :
    (buildAlways defaultAnalysis false false w1Parts 100 (fun _ => none) "both").1 Cat.GPU =
      Slot.empty :=
  (c1_build_complete defaultAnalysis false false w1Parts 100 (fun _ => none) "both"
    Cat.GPU).2 rfl (by decide)

/-! ### Claim C2: owned categories are locked and unpriced -/

/-- C2.  Every owned category keeps exactly the owned part through
selection, fallback and reconciliation, and the reported total is the sum
of the prices of the non-owned entries only. -/
theorem c2_owned_locked (reqs0 : Reqs) (preferRgb preferQuiet : Bool) (parts : List Part)
    (budget : ℕ) (owned : Cat → Option Part) (level : String) :
    (∀ c p, owned c = some p →
      (buildAlways reqs0 preferRgb preferQuiet parts budget owned level).1 c =
        Slot.part p) ∧
    (buildAlways reqs0 preferRgb preferQuiet parts budget owned level).2 =
      totalOf owned (buildAlways reqs0 preferRgb preferQuiet parts budget owned level).1 := by
  unfold buildAlways
  dsimp only
  split
  · constructor
    · intro c p h
      rw [dgl_owned allCats _ _ (by simp [h])]
      exact assembledBuild_owned h
    · exact dgl_total allCats _ _ rfl
  · constructor
    · intro c p h
      exact assembledBuild_owned h
    · rfl

theorem c2_owned_locked_witness :
    (buildAlways defaultAnalysis false false w1Parts 100 w2owned "both").1 Cat.GPU =
      Slot.part w2own :=
  (c2_owned_locked defaultAnalysis false false w1Parts 100 w2owned "both").1
    Cat.GPU w2own rfl

/-! ### Claim C4: budget monotonicity -/

/-- C4 counterexample.  With the catalog `[gZ, gB]` (a zero-priced 20 GB
GPU and a 500-priced 8 GB GPU), the default profile and no owned parts,
raising the budget from 500 to 1000 switches the selected GPU from `gZ`
(score 200000, picked by the cheapest fallback because `pick_best_within`
skips zero-priced parts) to `gB` (score 80500): the selected part's score
strictly decreases although the budget grew. -/
theorem c4_budget_monotone_counterexample :
    (buildAlways defaultAnalysis false false c4Parts 500 (fun _ => none) "both").1 Cat.GPU =
      Slot.part gZ ∧
    (buildAlways defaultAnalysis false false c4Parts 1000 (fun _ => none) "both").1 Cat.GPU =
      Slot.part gB ∧
    gpuScore gB < gpuScore gZ := by
  refine ⟨by with_unfolding_all decide, by with_unfolding_all decide, ?_⟩
  with_unfolding_all decide

/-- C4 amended.  What is monotone in the budget is each category's
selection cap `min(budget, allocation * multiplier)` (for any non-negative
multiplier, with the owned set held fixed); the score of the selected part
itself can decrease when the budget rises. -/
theorem c4_caps_monotone (owned : Cat → Option Part) (c : Cat) (mult : ℚ) (hm : 0 ≤ mult)
    (b1 b2 : ℕ) (h : b1 ≤ b2) :
    selCap b1 (allocFor b1 owned c) mult ≤ selCap b2 (allocFor b2 owned c) mult := by
  rw [selCap_eq_min, selCap_eq_min]
  have hw : 0 ≤ weights c / weightSum owned :=
    div_nonneg (weights_nonneg c) (weightSum_nonneg owned)
  have hc : (b1 : ℚ) ≤ (b2 : ℚ) := Nat.cast_le.mpr h
  refine min_le_min hc ?_
  unfold allocFor
  exact mul_le_mul_of_nonneg_right (mul_le_mul_of_nonneg_right hc hw) hm

theorem c4_caps_monotone_witness :
    selCap 500 (allocFor 500 (fun _ => none) Cat.GPU) (120 / 100) ≤
      selCap 1000 (allocFor 1000 (fun _ => none) Cat.GPU) (120 / 100) :=
  c4_caps_monotone (fun _ => none) Cat.GPU (120 / 100) (by norm_num) 500 1000
    (by norm_num)

/-! ### Claim C5: budget reconciliation -/

/-- C5 counterexample.  Catalog `[c5cpu, c5gA, c5gZ]`, budget 100, level
high-end: the build keeps GPU `c5gA` (price 50) and stops at total 150 >
100 even though `c5gZ` is a catalog GPU strictly cheaper than the current
selection (price 0 < 50) — the loop only considers positive-priced
alternatives, so it stops while a strictly cheaper alternative remains,
and it never substitutes the claimed cheapest strictly-cheaper part. -/
theorem c5_reconcile_counterexample :
    (buildAlways defaultAnalysis false false c5Parts 100 (fun _ => none) "high_end").1
      Cat.GPU = Slot.part c5gA ∧
    (100 : ℚ) <
      (buildAlways defaultAnalysis false false c5Parts 100 (fun _ => none) "high_end").2 ∧
    c5gZ ∈ partsByCategory c5Parts "GPU" ∧
    c5gZ.price_usd < c5gA.price_usd := by
  refine ⟨by with_unfolding_all decide, by with_unfolding_all decide, by decide, by decide⟩

/-- C5 amended.  The reconciliation pass (fixed priority order, cheapest
positive-priced strictly-cheaper substitution, total recomputed after each
substitution, never an error) stops only when the total is within budget
or no non-owned category has any positive-priced strictly cheaper catalog
part left. -/
theorem c5_reconcile (reqs0 : Reqs) (preferRgb preferQuiet : Bool) (parts : List Part)
    (budget : ℕ) (owned : Cat → Option Part) (level : String) (c : Cat)
    (hover : (budget : ℚ) <
      (buildAlways reqs0 preferRgb preferQuiet parts budget owned level).2)
    (hown : owned c = none) :
    ∀ p ∈ partsByCategory parts c.name,
      ¬(0 < p.price_usd ∧ p.price_usd <
          ((buildAlways reqs0 preferRgb preferQuiet parts budget owned level).1 c).price) := by
  unfold buildAlways at hover ⊢
  dsimp only at hover ⊢
  split at hover
  · rename_i hlt
    rw [if_pos hlt]
    exact dgl_post allCats _ _ hover c (mem_allCats c) hown
  · rename_i hnot
    exact absurd hover hnot

theorem c5_reconcile_witness :
    ¬(0 < c5gA.price_usd ∧ c5gA.price_usd <
        ((buildAlways defaultAnalysis false false c5Parts 100 (fun _ => none)
          "high_end").1 Cat.GPU).price) :=
  c5_reconcile defaultAnalysis false false c5Parts 100 (fun _ => none) "high_end"
    Cat.GPU (by with_unfolding_all decide) rfl c5gA (by decide)

end PCBuilder
